import Mathlib

/-!
Verification of the MPV-Pi-Player playback controller (`src/mpv_controller.py`)
and synchronization manager (`src/sync_manager.py`) against its design document.

Modelling conventions:
* Positions, durations and playback speeds are rationals (Python floats are
  modelled as exact arithmetic on ℚ); volumes are integers.
* The filesystem is a list of existing paths, passed explicitly to the
  operations that consult `os.path.exists`.
* The MPV IPC channel is abstracted by the boolean field `ipcUp`: the
  controller's `_send_command` returns success exactly when the socket exists
  and MPV answers `{error: success}`; both failure modes collapse into
  `ipcUp = false`.  `play` launches a fresh MPV attached to a new socket
  (`ipcUp := true`), `stop` removes the socket and kills the engine
  (`ipcUp := false`); `subprocess.Popen` is modelled as total (the engine
  binary is present), and `terminate`/`kill`/`poll` never raise, so the
  `except` arms of `play`/`stop` that swallow exceptions are unreachable in
  the model.
-/

namespace MPVPi

/-- Lifecycle of the player: `self.state ∈ {'stopped', 'playing', 'paused'}`. -/
inductive Lifecycle where
  | stopped
  | playing
  | paused
deriving DecidableEq, Repr

/-- The engine subprocess handle (`self.process`): all we observe of a
`Popen` object is whether `poll()` reports an exit (`poll() is not None`). -/
structure Proc where
  exited : Bool
deriving DecidableEq, Repr

/-- The mutable state of `MPVController` (`src/mpv_controller.py`), plus the
`ipcUp` abstraction of the IPC socket and the `loop` configuration flag read
by the monitor thread. -/
structure CtrlState where
  currentFile : Option String
  process : Option Proc
  state : Lifecycle
  position : ℚ
  duration : ℚ
  volume : ℤ
  ipcUp : Bool
  loop : Bool
deriving DecidableEq, Repr

/-- `MPVController.__init__`: no file, no process, stopped, zero position and
duration, volume from config (not clamped at init), no IPC socket yet. -/
def initState (cfgVolume : ℤ) (cfgLoop : Bool) : CtrlState :=
  { currentFile := none
    process := none
    state := .stopped
    position := 0
    duration := 0
    volume := cfgVolume
    ipcUp := false
    loop := cfgLoop }

/-- `MPVController.stop` (lines 177-208): sends `quit` best-effort (the
result is discarded), terminates/kills the process, then unconditionally
clears process, state, file, position and duration and removes the IPC
socket.  Always returns `True`. -/
def stop (s : CtrlState) : CtrlState × Bool :=
  ({ s with process := none
            state := .stopped
            currentFile := none
            position := 0
            duration := 0
            ipcUp := false }, true)

/-- `MPVController.play` (lines 41-131): first calls `self.stop()`
unconditionally, then checks `os.path.exists(filepath)`; on absence returns
`False` (the stop has already happened); otherwise records the file, starts
a fresh MPV process on a new IPC socket and sets the state to playing. -/
def play (fs : List String) (filepath : String) (s : CtrlState) : CtrlState × Bool :=
  let s1 := (stop s).1
  if filepath ∈ fs then
    ({ s1 with currentFile := some filepath
               process := some ⟨false⟩
               state := .playing
               ipcUp := true }, true)
  else
    (s1, false)

/-- `MPVController.pause` (lines 157-169): sends `cycle pause`; on success
flips playing ↔ paused (a stopped controller keeps its state) and returns
`True`; on IPC failure returns `False` with no state change. -/
def pause (s : CtrlState) : CtrlState × Bool :=
  if s.ipcUp then
    match s.state with
    | .playing => ({ s with state := .paused }, true)
    | .paused => ({ s with state := .playing }, true)
    | .stopped => (s, true)
  else
    (s, false)

/-- `MPVController.resume` (lines 171-175): delegates to `pause()` only when
the cached state is paused; in every other state it returns `True` without
touching the engine. -/
def resume (s : CtrlState) : CtrlState × Bool :=
  if s.state = .paused then pause s else (s, true)

/-- `MPVController.seek` (lines 210-219): sends `seek pos absolute`; on
success optimistically caches the new position. -/
def seek (pos : ℚ) (s : CtrlState) : CtrlState × Bool :=
  if s.ipcUp then ({ s with position := pos }, true) else (s, false)

/-- `MPVController.set_volume` (lines 221-230): clamps the level to
`[0, 100]` and stores it in `self.volume` *before* issuing
`set_property volume`; the return value reports the command's success but
the cached volume is updated either way. -/
def set_volume (level : ℤ) (s : CtrlState) : CtrlState × Bool :=
  let s1 := { s with volume := max 0 (min 100 level) }
  (s1, s1.ipcUp)

/-- `MPVController.set_playback_speed` (lines 253-258): pure
`set_property speed` command; no local field caches the speed. -/
def set_playback_speed (_speed : ℚ) (s : CtrlState) : CtrlState × Bool :=
  (s, s.ipcUp)

/-- `MPVController.get_state` (lines 232-239): a mutating read — when a
process handle exists and `poll()` reports an exit, the state is forced to
stopped and the current file is cleared (position and duration are left
alone); the possibly-updated state is returned. -/
def get_state (s : CtrlState) : CtrlState × Lifecycle :=
  match s.process with
  | some p =>
    if p.exited then
      ({ s with state := .stopped, currentFile := none }, .stopped)
    else
      (s, s.state)
  | none => (s, s.state)

/-- One iteration of the `_monitor_position` background loop (lines
336-362): while playing, overwrite position/duration with the
engine-reported values (`none` models a failed `get_property`); when
`duration > 0` and `position ≥ duration - 1`, either seek to `0` (loop
configured) or set the state to stopped — leaving `currentFile`, `position`
and `duration` as they are. -/
def monitorTick (enginePos engineDur : Option ℚ) (s : CtrlState) : CtrlState :=
  if s.state = .playing then
    let s1 : CtrlState := match enginePos with
      | some p => { s with position := p }
      | none => s
    let s2 : CtrlState := match engineDur with
      | some d => { s1 with duration := d }
      | none => s1
    if 0 < s2.duration ∧ s2.duration - 1 ≤ s2.position then
      if s2.loop then (seek 0 s2).1 else { s2 with state := .stopped }
    else
      s2
  else
    s

/-- The controller transitions triggered through its public API
(`play`/`pause`/`resume`/`stop`/`seek`/`set_volume`). -/
inductive ApiStep (fs : List String) : CtrlState → CtrlState → Prop where
  | play (p : String) (s : CtrlState) : ApiStep fs s (play fs p s).1
  | pause (s : CtrlState) : ApiStep fs s (pause s).1
  | resume (s : CtrlState) : ApiStep fs s (resume s).1
  | stop (s : CtrlState) : ApiStep fs s (stop s).1
  | seek (q : ℚ) (s : CtrlState) : ApiStep fs s (seek q s).1
  | setVolume (v : ℤ) (s : CtrlState) : ApiStep fs s (set_volume v s).1

/-- All transitions of the controller: the API ones, a tick of the monitor
thread, a `get_state` read, and the environment event of the engine process
exiting on its own. -/
inductive Step (fs : List String) : CtrlState → CtrlState → Prop where
  | api {s t : CtrlState} : ApiStep fs s t → Step fs s t
  | monitor (enginePos engineDur : Option ℚ) (s : CtrlState) :
      Step fs s (monitorTick enginePos engineDur s)
  | getState (s : CtrlState) : Step fs s (get_state s).1
  | procExit (s : CtrlState) (p : Proc) (h : s.process = some p) :
      Step fs s { s with process := some ⟨true⟩, ipcUp := false }

/-! ## Synchronization manager (`src/sync_manager.py`) -/

/-- Python's `abs` on rationals (`abs(master_pos - slave_pos)`). -/
def ratAbs (q : ℚ) : ℚ := if q < 0 then -q else q

/-- `os.path.basename`: the part of the path after the last `/` (computed
over the character list; the fold resets its accumulator at every `/`). -/
def basename (p : String) : String :=
  String.mk (p.data.foldl (fun acc c => if c = '/' then [] else acc ++ [c]) [])

/-- `os.path.join(d, f)` for a relative `f` (a basename never contains `/`):
concatenation with a single separator unless `d` is empty or already ends
with the separator. -/
def joinPath (d f : String) : String :=
  if d = "" ∨ d.data.getLast? = some '/' then d ++ f else d ++ "/" ++ f

/-- The state dictionary produced by `SyncManager._get_player_state` (lines
301-313) and consumed by `_apply_sync_state`; the wire timestamp is not
read anywhere, so it is omitted. -/
structure SyncSnapshot where
  state : Lifecycle
  currentFile : Option String
  position : ℚ
  duration : ℚ
  volume : ℤ
deriving DecidableEq, Repr

/-- The player-API calls that `_apply_sync_state` issues against the local
controller, recorded in order. -/
inductive PCall where
  | play (path : String)
  | resume
  | pause
  | stop
  | seek (pos : ℚ)
  | setSpeed (speed : ℚ)
  | setVolume (v : ℤ)
deriving DecidableEq, Repr

/-- The portion of `SyncManager._apply_sync_state` (lines 223-264) that
runs after file reconciliation: lifecycle reconciliation via the mutating
`get_state`, then drift correction while the master is playing, then volume
adoption when the difference exceeds 5.  Returns the new controller state
and the list of player calls made. -/
def syncAfterFile (snap : SyncSnapshot) (s1 : CtrlState) : CtrlState × List PCall :=
  let gr := get_state s1
  let s2 := gr.1
  let slaveState := gr.2
  let lifeRes : CtrlState × List PCall :=
    if snap.state = .playing ∧ slaveState ≠ .playing then
      ((resume s2).1, [PCall.resume])
    else if snap.state = .paused ∧ slaveState ≠ .paused then
      ((pause s2).1, [PCall.pause])
    else if snap.state = .stopped ∧ slaveState ≠ .stopped then
      ((stop s2).1, [PCall.stop])
    else
      (s2, [])
  let s3 := lifeRes.1
  let a3 := lifeRes.2
  let driftRes : CtrlState × List PCall :=
    if snap.state = .playing then
      let drift := ratAbs (snap.position - s3.position)
      if 1 < drift then
        ((seek (snap.position + 1/5) s3).1, [PCall.seek (snap.position + 1/5)])
      else if 1/5 < drift then
        if s3.position < snap.position then
          ((set_playback_speed (21/20) s3).1, [PCall.setSpeed (21/20)])
        else
          ((set_playback_speed (19/20) s3).1, [PCall.setSpeed (19/20)])
      else
        ((set_playback_speed 1 s3).1, [PCall.setSpeed 1])
    else
      (s3, [])
  let s4 := driftRes.1
  let a4 := driftRes.2
  let volRes : CtrlState × List PCall :=
    if 5 < |snap.volume - s4.volume| then
      ((set_volume snap.volume s4).1, [PCall.setVolume snap.volume])
    else
      (s4, [])
  (volRes.1, a3 ++ a4 ++ volRes.2)

/-- `SyncManager._apply_sync_state` (lines 204-267) on a subordinate: file
reconciliation first — when the master's file is set and differs from the
local one, resolve its basename against the local media directory and play
it if present, or `return` at once (skipping everything else this tick) if
absent — then the `syncAfterFile` stages. -/
def applySyncState (fs : List String) (mediaDir : String) (snap : SyncSnapshot)
    (s0 : CtrlState) : CtrlState × List PCall :=
  match snap.currentFile with
  | none => syncAfterFile snap s0
  | some mf =>
    if mf ≠ "" ∧ some mf ≠ s0.currentFile then
      let localPath := joinPath mediaDir (basename mf)
      if localPath ∈ fs then
        let r := syncAfterFile snap (play fs localPath s0).1
        (r.1, PCall.play localPath :: r.2)
      else
        (s0, [])
    else
      syncAfterFile snap s0

/-- `SyncManager._get_player_state` (lines 301-313): builds a snapshot from
the controller; evaluating the `'state'` entry calls the mutating
`get_state` first, so `current_file` is read after a possible exit
detection. -/
def getPlayerState (s : CtrlState) : CtrlState × SyncSnapshot :=
  let gr := get_state s
  (gr.1,
   { state := gr.2
     currentFile := gr.1.currentFile
     position := gr.1.position
     duration := gr.1.duration
     volume := gr.1.volume })

/-- The sync manager's role (`self.mode`). -/
inductive SyncMode where
  | master
  | slave
  | standalone
deriving DecidableEq, Repr

/-- Messages on the synchronization wire. -/
inductive NetMsg where
  | sync (snap : SyncSnapshot)
  | command (cmd : String)
  | heartbeat
deriving DecidableEq, Repr

/-- One iteration of `SyncManager._broadcast_master_state` (lines 122-150):
when the registry is non-empty and a player exists, poll the player and, only
if it reports playing, send the snapshot to every registered subordinate.
Returns the (possibly mutated by `get_state`) player and the send attempts
`(connection, message)`. -/
def broadcastTick (slaves : List Nat) (player : Option CtrlState) :
    Option CtrlState × List (Nat × NetMsg) :=
  match player with
  | none => (none, [])
  | some ps =>
    if slaves = [] then
      (some ps, [])
    else
      let pr := getPlayerState ps
      if pr.2.state = .playing then
        (some pr.1, slaves.map fun c => (c, NetMsg.sync pr.2))
      else
        (some pr.1, [])

/-- The prefix of `SyncManager._handle_slave_connection` (lines 91-104) that
runs on a new subordinate connection: register the connection, then — if a
player exists — send it one initial state snapshot regardless of lifecycle.
Returns the new registry, the player, and the send attempts. -/
def handleConnect (c : Nat) (slaves : List Nat) (player : Option CtrlState) :
    List Nat × Option CtrlState × List (Nat × NetMsg) :=
  let slaves1 := slaves ++ [c]
  match player with
  | none => (slaves1, none, [])
  | some ps =>
    let pr := getPlayerState ps
    (slaves1, some pr.1, [(c, NetMsg.sync pr.2)])

/-- `SyncManager.broadcast_command` (lines 315-345): sends a command message
to every registered subordinate, but only in master mode and only when the
registry is non-empty. -/
def broadcastCommand (mode : SyncMode) (slaves : List Nat) (cmd : String) :
    List (Nat × NetMsg) :=
  if mode ≠ .master ∨ slaves = [] then []
  else slaves.map fun c => (c, NetMsg.command cmd)

/-! ## Basic facts about the embedding -/

theorem ratAbs_eq_abs (q : ℚ) : ratAbs q = |q| := by
  rw [ratAbs]
  split
  · rw [abs_of_neg (by assumption)]
  · rw [abs_of_nonneg (le_of_not_lt (by assumption))]

/-- A controller that is playing a file with a live engine; used as a
concrete test state. -/
def playingState : CtrlState :=
  { currentFile := some "/videos/a.mp4"
    process := some ⟨false⟩
    state := .playing
    position := 7
    duration := 100
    volume := 100
    ipcUp := true
    loop := false }

/-! ## Claims about the Playback Controller -/

/-- C3: `stop()` always transitions to Stopped and clears `currentFile`,
`position` and `duration`, whatever the prior state (including a dead IPC
channel, `ipcUp = false`, where the `quit` command fails); it reports
success, and running it on its own result — in particular on an
already-stopped controller — changes nothing. -/
theorem stop_always_stopped (s : CtrlState) :
    (stop s).1.state = .stopped ∧ (stop s).1.currentFile = none ∧
    (stop s).1.position = 0 ∧ (stop s).1.duration = 0 ∧
    (stop s).2 = true ∧ stop ((stop s).1) = stop s := by
  refine ⟨rfl, rfl, rfl, rfl, rfl, rfl⟩

/-- C9: when `pause()` is called on a stopped controller and the
`cycle pause` command succeeds, the call returns success but the state is
entirely unchanged: the optimistic lifecycle flip only applies between
playing and paused. -/
theorem pause_stopped_keeps_stopped (s : CtrlState)
    (hst : s.state = .stopped) (hipc : s.ipcUp = true) :
    pause s = (s, true) := by
  rw [pause, hipc, if_pos rfl, hst]

/-- Witness for `pause_stopped_keeps_stopped` on a concrete stopped
controller with a live IPC channel. -/
theorem pause_stopped_keeps_stopped_witness :
    pause { playingState with state := .stopped } =
      ({ playingState with state := .stopped }, true) :=
  pause_stopped_keeps_stopped _ rfl rfl

/-- C10: `get_state()` is a mutating read: when a process handle exists and
the process has exited, it forces the state to Stopped and clears
`currentFile`, but leaves `position` and `duration` (and `volume`) at their
previous values, and returns the stopped state. -/
theorem get_state_exit_detection (s : CtrlState) (p : Proc)
    (hp : s.process = some p) (he : p.exited = true) :
    (get_state s).1.state = .stopped ∧ (get_state s).1.currentFile = none ∧
    (get_state s).1.position = s.position ∧
    (get_state s).1.duration = s.duration ∧
    (get_state s).1.volume = s.volume ∧
    (get_state s).2 = .stopped := by
  simp [get_state, hp, he]

/-- Witness for `get_state_exit_detection`: a playing controller whose
engine died at position 7 of 100 keeps that nonzero position after the
mutating read. -/
theorem get_state_exit_detection_witness :
    (get_state { playingState with process := some ⟨true⟩ }).1.state = .stopped ∧
    (get_state { playingState with process := some ⟨true⟩ }).1.currentFile = none ∧
    (get_state { playingState with process := some ⟨true⟩ }).1.position = 7 ∧
    (get_state { playingState with process := some ⟨true⟩ }).1.duration = 100 ∧
    (get_state { playingState with process := some ⟨true⟩ }).1.volume = 100 ∧
    (get_state { playingState with process := some ⟨true⟩ }).2 = .stopped :=
  get_state_exit_detection _ ⟨true⟩ rfl rfl

/-- C5 counterexample: on a stopped controller with no IPC socket,
`resume()` succeeds without touching the engine while `pause()` fails —
so `resume()` does *not* delegate to the pause toggle when Stopped. -/
theorem resume_stopped_differs_from_pause :
    resume (initState 100 false) = (initState 100 false, true) ∧
    pause (initState 100 false) = (initState 100 false, false) ∧
    (resume (initState 100 false)).2 ≠ (pause (initState 100 false)).2 := by
  refine ⟨rfl, rfl, by decide⟩

/-- C5 amended: `resume()` is a no-op returning success whenever the state
is not Paused (both Playing and Stopped); it delegates to the `pause()`
toggle only when the state is Paused. -/
theorem resume_delegates_only_when_paused (s : CtrlState) :
    (s.state ≠ .paused → resume s = (s, true)) ∧
    (s.state = .paused → resume s = pause s) := by
  constructor
  · intro h
    rw [resume, if_neg h]
  · intro h
    rw [resume, if_pos h]

/-- Witness for `resume_delegates_only_when_paused` at a stopped and at a
paused controller. -/
theorem resume_delegates_only_when_paused_witness :
    resume (initState 100 false) = (initState 100 false, true) ∧
    resume { playingState with state := .paused } =
      pause { playingState with state := .paused } :=
  ⟨(resume_delegates_only_when_paused (initState 100 false)).1 (by decide),
   (resume_delegates_only_when_paused _).2 rfl⟩

/-- C6 counterexample: with the IPC channel down the property-set command
fails (`set_volume` returns `false`), yet the cached volume has already
been overwritten with the clamped level — it is not left unchanged. -/
theorem set_volume_caches_despite_failure :
    (set_volume 50 (initState 100 false)).2 = false ∧
    (set_volume 50 (initState 100 false)).1.volume = 50 ∧
    (initState 100 false).volume = 100 := by
  refine ⟨rfl, by decide, rfl⟩

/-- C6 amended: `set_volume(level)` clamps the level to `[0,100]` and
writes the clamped value into the cached volume *unconditionally, before
issuing the engine command*; the returned flag reports the command's
success (`ipcUp`), but the cache is updated even on failure.  No other
field changes. -/
theorem set_volume_clamps_and_caches (level : ℤ) (s : CtrlState) :
    (set_volume level s).1.volume = max 0 (min 100 level) ∧
    0 ≤ (set_volume level s).1.volume ∧ (set_volume level s).1.volume ≤ 100 ∧
    (0 ≤ level → level ≤ 100 → (set_volume level s).1.volume = level) ∧
    (set_volume level s).2 = s.ipcUp ∧
    (set_volume level s).1.state = s.state ∧
    (set_volume level s).1.currentFile = s.currentFile ∧
    (set_volume level s).1.position = s.position := by
  refine ⟨rfl, ?_, ?_, ?_, rfl, rfl, rfl, rfl⟩
  · simp only [set_volume]
    omega
  · simp only [set_volume]
    omega
  · intro h0 h1
    simp only [set_volume]
    omega

/-- Witness for `set_volume_clamps_and_caches` at level 30. -/
theorem set_volume_clamps_and_caches_witness :
    (set_volume 30 playingState).1.volume = 30 ∧
    (set_volume 30 playingState).2 = true :=
  ⟨(set_volume_clamps_and_caches 30 playingState).2.2.2.1 (by decide) (by decide),
   (set_volume_clamps_and_caches 30 playingState).2.2.2.2.1⟩

/-- Unfolding of `play` on an existing path. -/
theorem play_of_mem {fs : List String} {p : String} (s : CtrlState) (hp : p ∈ fs) :
    play fs p s =
      ({ (stop s).1 with
           currentFile := some p
           process := some { exited := false }
           state := .playing
           ipcUp := true }, true) := by
  simp [play, hp]

/-- Unfolding of `play` on a missing path: the unconditional `stop()` has
already run when the existence check fails. -/
theorem play_of_not_mem {fs : List String} {p : String} (s : CtrlState) (hp : p ∉ fs) :
    play fs p s = ((stop s).1, false) := by
  simp [play, hp]

/-- C4 counterexample: calling `play` with a nonexistent path on a playing
controller returns failure but does *not* leave the playback state
unchanged — the unconditional `self.stop()` at the top of `play` has
already stopped the player and cleared file/position/duration. -/
theorem play_missing_file_mutates_state :
    (play ["/videos/a.mp4"] "/videos/missing.mp4" playingState).2 = false ∧
    (play ["/videos/a.mp4"] "/videos/missing.mp4" playingState).1.state = .stopped ∧
    (play ["/videos/a.mp4"] "/videos/missing.mp4" playingState).1.currentFile = none ∧
    playingState.state = .playing ∧
    playingState.currentFile = some "/videos/a.mp4" := by
  refine ⟨by decide, by decide, by decide, rfl, rfl⟩

/-- C4 amended: `play(path)` stops any current playback *unconditionally,
before* the existence check; when the path is missing it returns failure
with the controller left freshly stopped (not with its previous state), and
when the path exists it launches the engine with `currentFile = path` and a
playing lifecycle. -/
theorem play_stops_before_existence_check (fs : List String) (p : String)
    (s : CtrlState) :
    (p ∉ fs → play fs p s = ((stop s).1, false)) ∧
    (p ∈ fs →
      (play fs p s).2 = true ∧
      (play fs p s).1.currentFile = some p ∧
      (play fs p s).1.state = .playing) := by
  constructor
  · intro h
    exact play_of_not_mem s h
  · intro h
    rw [play_of_mem s h]
    exact ⟨rfl, rfl, rfl⟩

/-- Witness for `play_stops_before_existence_check`: the missing-path and
existing-path cases on the concrete playing controller. -/
theorem play_stops_before_existence_check_witness :
    play ["/videos/a.mp4"] "/videos/missing.mp4" playingState =
      ((stop playingState).1, false) ∧
    (play ["/videos/a.mp4"] "/videos/a.mp4" playingState).2 = true ∧
    (play ["/videos/a.mp4"] "/videos/a.mp4" playingState).1.currentFile =
      some "/videos/a.mp4" :=
  ⟨(play_stops_before_existence_check ["/videos/a.mp4"] "/videos/missing.mp4"
      playingState).1 (by decide),
   ((play_stops_before_existence_check ["/videos/a.mp4"] "/videos/a.mp4"
      playingState).2 (by decide)).1,
   ((play_stops_before_existence_check ["/videos/a.mp4"] "/videos/a.mp4"
      playingState).2 (by decide)).2.1⟩

/-- The property claimed invariant for stopped controllers, strengthened
with the fact that a stopped controller reached through the API has no
live IPC socket (which is what makes the invariant inductive). -/
def StoppedInv (s : CtrlState) : Prop :=
  s.state = .stopped →
    s.position = 0 ∧ s.duration = 0 ∧ s.currentFile = none ∧ s.ipcUp = false

theorem pause_preserves_stoppedInv {s : CtrlState} (hs : StoppedInv s) :
    StoppedInv (pause s).1 := by
  by_cases hi : s.ipcUp
  · rcases hst : s.state with _ | _ | _ <;> simp only [pause, hi, if_true, hst]
    · exact hs
    · intro ht
      exact absurd ht (by simp)
    · intro ht
      exact absurd ht (by simp)
  · simp only [pause, hi, if_false]
    exact hs

theorem apiStep_preserves_stoppedInv {fs : List String} {s t : CtrlState}
    (h : ApiStep fs s t) (hs : StoppedInv s) : StoppedInv t := by
  cases h with
  | play p s =>
    by_cases hp : p ∈ fs
    · rw [play_of_mem s hp]
      intro ht
      exact absurd ht (by simp)
    · rw [play_of_not_mem s hp]
      intro _
      exact ⟨rfl, rfl, rfl, rfl⟩
  | pause s => exact pause_preserves_stoppedInv hs
  | resume s =>
    by_cases hst : s.state = .paused
    · rw [resume, if_pos hst]
      exact pause_preserves_stoppedInv hs
    · rw [resume, if_neg hst]
      exact hs
  | stop s =>
    intro _
    exact ⟨rfl, rfl, rfl, rfl⟩
  | seek q s =>
    by_cases hi : s.ipcUp
    · simp only [seek, hi, if_true]
      intro ht
      exact absurd (hs ht).2.2.2 (by simp [hi])
    · simp only [seek, hi, if_false]
      exact hs
  | setVolume v s =>
    intro ht
    exact ⟨(hs ht).1, (hs ht).2.1, (hs ht).2.2.1, (hs ht).2.2.2⟩

/-- `StoppedInv` holds in every API-reachable state. -/
theorem stoppedInv_of_api_reachable {fs : List String} {v : ℤ} {l : Bool}
    {s : CtrlState}
    (h : Relation.ReflTransGen (ApiStep fs) (initState v l) s) :
    StoppedInv s := by
  induction h with
  | refl => exact fun _ => ⟨rfl, rfl, rfl, rfl⟩
  | tail _ hbc ih => exact apiStep_preserves_stoppedInv hbc ih

/-- C1 amended: the invariant `Stopped ⇒ position = 0 ∧ duration = 0 ∧
currentFile = none` holds for every state reachable from a freshly
constructed controller through API calls alone (`play`, `pause`, `resume`,
`stop`, `seek`, `set_volume`); it is the monitor thread's end-of-stream
transition and `get_state`'s exit detection that violate it for full
reachability. -/
theorem stopped_invariant_under_api (fs : List String) (v : ℤ) (l : Bool)
    (s : CtrlState)
    (h : Relation.ReflTransGen (ApiStep fs) (initState v l) s)
    (hst : s.state = .stopped) :
    s.position = 0 ∧ s.duration = 0 ∧ s.currentFile = none := by
  have hinv : StoppedInv s := stoppedInv_of_api_reachable h
  exact ⟨(hinv hst).1, (hinv hst).2.1, (hinv hst).2.2.1⟩

/-- Witness for `stopped_invariant_under_api` at the initial state itself. -/
theorem stopped_invariant_under_api_witness :
    (initState 100 false).position = 0 ∧ (initState 100 false).duration = 0 ∧
    (initState 100 false).currentFile = none :=
  stopped_invariant_under_api ["/videos/a.mp4"] 100 false (initState 100 false)
    Relation.ReflTransGen.refl rfl

/-- The state reached by playing an existing file and then letting the
monitor thread observe the engine report `time-pos = 100` with
`duration = 100` (end of stream, looping off). -/
def eosState : CtrlState :=
  monitorTick (some 100) (some 100)
    (play ["/videos/a.mp4"] "/videos/a.mp4" (initState 100 false)).1

/-- C1 counterexample: `eosState` is reachable from a fresh controller, its
lifecycle is Stopped, yet its `currentFile` is still set and its position
and duration are 100 — the claimed all-reachable-states invariant is
false.  The end-of-stream branch of `_monitor_position` sets
`self.state = 'stopped'` without clearing anything. -/
theorem stopped_invariant_fails_at_eos :
    Relation.ReflTransGen (Step ["/videos/a.mp4"]) (initState 100 false) eosState ∧
    eosState.state = .stopped ∧
    eosState.currentFile = some "/videos/a.mp4" ∧
    eosState.position = 100 ∧ eosState.duration = 100 := by
  have hreach : Relation.ReflTransGen (Step ["/videos/a.mp4"])
      (initState 100 false) eosState :=
    Relation.ReflTransGen.tail
      (Relation.ReflTransGen.single
        (Step.api (ApiStep.play "/videos/a.mp4" (initState 100 false))))
      (Step.monitor (some 100) (some 100) _)
  have hval : eosState =
      { currentFile := some "/videos/a.mp4", process := some ⟨false⟩,
        state := .stopped, position := 100, duration := 100, volume := 100,
        ipcUp := true, loop := false } := by
    rw [eosState, play_of_mem _ (by decide)]
    rw [monitorTick]
    norm_num [stop, initState]
  rw [hval] at hreach ⊢
  exact ⟨hreach, rfl, rfl, rfl, rfl⟩

/-! ## Claims about the Sync Coordinator -/

/-- C8: when a snapshot carries a file different from the local one, the
subordinate resolves the basename of the master's file against its local
media directory: if the resolved path is absent it skips the whole tick,
returning the local state completely unchanged with no player call at all
(no partial state change); if it is present, the very first player call of
the tick plays that resolved path and reconciliation continues. -/
theorem applySync_file_resolution (fs : List String) (mediaDir : String)
    (snap : SyncSnapshot) (s : CtrlState) (mf : String)
    (hmf : snap.currentFile = some mf) (hne : mf ≠ "")
    (hdiff : some mf ≠ s.currentFile) :
    (joinPath mediaDir (basename mf) ∉ fs →
      applySyncState fs mediaDir snap s = (s, [])) ∧
    (joinPath mediaDir (basename mf) ∈ fs →
      ∃ tl, (applySyncState fs mediaDir snap s).2 =
        PCall.play (joinPath mediaDir (basename mf)) :: tl) := by
  constructor
  · intro habs
    simp only [applySyncState, hmf]
    rw [if_pos ⟨hne, hdiff⟩, if_neg habs]
  · intro hpres
    simp only [applySyncState, hmf]
    rw [if_pos ⟨hne, hdiff⟩, if_pos hpres]
    exact ⟨_, rfl⟩

/-- A snapshot carrying a master-side path whose basename is
`movie.mp4`. -/
def movieSnap : SyncSnapshot :=
  { state := .playing
    currentFile := some "/primary/path/movie.mp4"
    position := 10
    duration := 100
    volume := 80 }

/-- Witness for `applySync_file_resolution`: with media dir `/videos`, the
snapshot file `/primary/path/movie.mp4` resolves to `/videos/movie.mp4`;
when that file is absent the tick is a no-op, when present the first player
call plays it. -/
theorem applySync_file_resolution_witness :
    applySyncState ["/videos/a.mp4"] "/videos" movieSnap playingState =
      (playingState, []) ∧
    ∃ tl, (applySyncState ["/videos/a.mp4", "/videos/movie.mp4"] "/videos"
      movieSnap playingState).2 = PCall.play "/videos/movie.mp4" :: tl := by
  have hj : joinPath "/videos" (basename "/primary/path/movie.mp4") =
      "/videos/movie.mp4" := rfl
  constructor
  · exact (applySync_file_resolution ["/videos/a.mp4"] "/videos" movieSnap
      playingState "/primary/path/movie.mp4" rfl (by decide) (by decide)).1
      (by rw [hj]; decide)
  · have h := (applySync_file_resolution ["/videos/a.mp4", "/videos/movie.mp4"]
      "/videos" movieSnap playingState "/primary/path/movie.mp4" rfl (by decide)
      (by decide)).2 (by rw [hj]; decide)
    rwa [hj] at h

theorem seek_fst_volume (q : ℚ) (s : CtrlState) : (seek q s).1.volume = s.volume := by
  rw [seek]
  split <;> rfl

theorem set_playback_speed_fst (q : ℚ) (s : CtrlState) :
    (set_playback_speed q s).1 = s := rfl

theorem set_volume_fst_volume (v : ℤ) (s : CtrlState) :
    (set_volume v s).1.volume = max 0 (min 100 v) := rfl

/-- When the snapshot's file already matches the local one, the file stage
of `_apply_sync_state` is a no-op. -/
theorem applySync_same_file (fs : List String) (mediaDir : String)
    (snap : SyncSnapshot) (s : CtrlState)
    (hfile : snap.currentFile = s.currentFile) :
    applySyncState fs mediaDir snap s = syncAfterFile snap s := by
  rcases hcf : snap.currentFile with _ | mf
  · simp [applySyncState, hcf]
  · rw [hcf] at hfile
    simp only [applySyncState, hcf]
    rw [if_neg fun h => h.2 hfile]

/-- C2: for a subordinate applying a Playing snapshot with no file or
lifecycle change pending, writing `drift = |S.position − L.position|`: if
`drift > 1` the only position/speed call is a seek to `S.position + 0.2`;
if `0.2 < drift ≤ 1` it is a speed change to 1.05 when the local player is
behind and 0.95 when ahead (no seek); if `drift ≤ 0.2` it is a speed reset
to 1.0.  Independently, the local volume is set to `S.volume` exactly when
`|S.volume − L.volume| > 5` and left unchanged otherwise. -/
theorem applySync_drift_and_volume (fs : List String) (mediaDir : String)
    (snap : SyncSnapshot) (s : CtrlState)
    (hfile : snap.currentFile = s.currentFile)
    (hms : snap.state = .playing)
    (hss : s.state = .playing)
    (hproc : s.process = some { exited := false })
    (hv0 : 0 ≤ snap.volume) (hv1 : snap.volume ≤ 100) :
    (applySyncState fs mediaDir snap s).2 =
      (if 1 < ratAbs (snap.position - s.position) then
        [PCall.seek (snap.position + 1/5)]
       else if 1/5 < ratAbs (snap.position - s.position) then
        (if s.position < snap.position then [PCall.setSpeed (21/20)]
         else [PCall.setSpeed (19/20)])
       else [PCall.setSpeed 1]) ++
      (if 5 < |snap.volume - s.volume| then [PCall.setVolume snap.volume]
       else []) ∧
    (applySyncState fs mediaDir snap s).1.volume =
      (if 5 < |snap.volume - s.volume| then snap.volume else s.volume) := by
  rw [applySync_same_file fs mediaDir snap s hfile]
  simp only [syncAfterFile, get_state, hproc, hms, hss]
  by_cases hd1 : 1 < ratAbs (snap.position - s.position) <;>
    by_cases hd2 : (5:ℚ)⁻¹ < ratAbs (snap.position - s.position) <;>
    by_cases hp : s.position < snap.position <;>
    by_cases hv : 5 < |snap.volume - s.volume| <;>
      simp [hd1, hd2, hp, hv, seek_fst_volume, set_playback_speed_fst,
        set_volume_fst_volume, max_eq_right hv0, min_eq_right hv1]

/-- A subordinate playing the same file as `movieSnap`, lagging at
position 8.5 with local volume 70. -/
def syncDriftState : CtrlState :=
  { playingState with
      currentFile := some "/primary/path/movie.mp4"
      position := 17/2
      volume := 70 }

/-- Witness for `applySync_drift_and_volume`: master at 10.0, local at 8.5
(drift 1.5) seeks to 10.2; master volume 80 against local 70 (diff 10)
adopts 80. -/
theorem applySync_drift_and_volume_witness :
    (applySyncState [] "/videos" movieSnap syncDriftState).2 =
      [PCall.seek (10 + 1/5), PCall.setVolume 80] ∧
    (applySyncState [] "/videos" movieSnap syncDriftState).1.volume = 80 := by
  have h := applySync_drift_and_volume [] "/videos" movieSnap syncDriftState
    rfl rfl rfl rfl (by decide) (by decide)
  have e1 : movieSnap.position = 10 := rfl
  have e2 : syncDriftState.position = 17/2 := rfl
  have e3 : movieSnap.volume = 80 := rfl
  have e4 : syncDriftState.volume = 70 := rfl
  rw [e1, e2, e3, e4] at h
  rw [if_pos (show (1:ℚ) < ratAbs (10 - 17/2) by norm_num [ratAbs]),
      if_pos (show (5:ℤ) < |(80:ℤ) - 70| by decide)] at h
  exact h

/-- C7 counterexample: a freshly constructed (hence Stopped) player on the
primary; when a new subordinate connects, `_handle_slave_connection` sends
it an initial `sync` snapshot even though the lifecycle is Stopped — so
sync snapshots are not confined to the Playing lifecycle. -/
theorem initial_snapshot_sent_while_stopped :
    (initState 100 false).state = .stopped ∧
    (handleConnect 7 [] (some (initState 100 false))).2.2 =
      [(7, NetMsg.sync { state := .stopped, currentFile := none, position := 0,
                         duration := 0, volume := 100 })] :=
  ⟨rfl, rfl⟩

/-- C7 amended: the periodic broadcast loop never attempts a send when the
subordinate registry is empty and only ever emits snapshots whose lifecycle
is Playing (so it sends nothing while Stopped or Paused); the command relay
likewise sends nothing to an empty registry.  However, the
connection handler sends one initial snapshot — of whatever lifecycle —
to a newly registered subordinate (the registry is non-empty by then). -/
theorem broadcast_gating (slaves : List Nat) (player : Option CtrlState)
    (mode : SyncMode) (cmd : String) :
    (slaves = [] → (broadcastTick slaves player).2 = [] ∧
      broadcastCommand mode slaves cmd = []) ∧
    (∀ c m, (c, m) ∈ (broadcastTick slaves player).2 →
      ∃ snap, m = NetMsg.sync snap ∧ snap.state = .playing) ∧
    (∀ c q m, (q, m) ∈ (handleConnect c slaves player).2.2 →
      q = c ∧ (handleConnect c slaves player).1 ≠ []) := by
  refine ⟨?_, ?_, ?_⟩
  · intro h
    subst h
    constructor
    · cases player <;> simp [broadcastTick]
    · simp [broadcastCommand]
  · intro c m hm
    cases player with
    | none => simp [broadcastTick] at hm
    | some ps =>
      by_cases hsl : slaves = []
      · simp [broadcastTick, hsl] at hm
      · by_cases hply : (getPlayerState ps).2.state = .playing
        · simp only [broadcastTick, hsl, if_neg, if_pos hply, ite_false] at hm
          obtain ⟨a, -, heq⟩ := List.mem_map.mp hm
          exact ⟨(getPlayerState ps).2, ((Prod.ext_iff.mp heq).2).symm, hply⟩
        · simp [broadcastTick, hsl, hply] at hm
  · intro c q m hm
    cases player with
    | none => simp [handleConnect] at hm
    | some ps =>
      simp only [handleConnect, List.mem_singleton] at hm
      refine ⟨by rw [Prod.ext_iff] at hm; exact hm.1, ?_⟩
      simp [handleConnect]

/-- The snapshot `_get_player_state` produces from `playingState`. -/
def playingSnap : SyncSnapshot :=
  { state := .playing
    currentFile := some "/videos/a.mp4"
    position := 7
    duration := 100
    volume := 100 }

/-- Witness for `broadcast_gating`: empty-registry ticks and command relays
send nothing; a snapshot actually broadcast (registry `[3]`, playing
player) has a Playing lifecycle; and the initial snapshot upon connecting
subordinate `7` goes to `7` with a non-empty registry. -/
theorem broadcast_gating_witness :
    (broadcastTick [] (some playingState)).2 = [] ∧
    broadcastCommand SyncMode.master [] "pause" = [] ∧
    (∃ snap, NetMsg.sync playingSnap = NetMsg.sync snap ∧
      snap.state = .playing) ∧
    (handleConnect 7 [2] (some playingState)).1 ≠ [] := by
  have h1 := (broadcast_gating [] (some playingState) SyncMode.master "pause").1 rfl
  have hmem : (3, NetMsg.sync playingSnap) ∈
      (broadcastTick [3] (some playingState)).2 := by
    have he : (broadcastTick [3] (some playingState)).2 =
        [(3, NetMsg.sync playingSnap)] := rfl
    rw [he]
    exact List.mem_singleton.mpr rfl
  have h2 := (broadcast_gating [3] (some playingState) SyncMode.master "pause").2.1
    3 (NetMsg.sync playingSnap) hmem
  have hcmem : (7, NetMsg.sync playingSnap) ∈
      (handleConnect 7 [2] (some playingState)).2.2 := by
    have he : (handleConnect 7 [2] (some playingState)).2.2 =
        [(7, NetMsg.sync playingSnap)] := rfl
    rw [he]
    exact List.mem_singleton.mpr rfl
  have h3 := (broadcast_gating [2] (some playingState) SyncMode.master "pause").2.2
    7 7 (NetMsg.sync playingSnap) hcmem
  exact ⟨h1.1, h1.2, h2, h3.2⟩

end MPVPi

